import Mathlib

/-!
Shallow embedding of the n8n self-hosted AI assistant feature:
the two self-hosted provider clients (`OpenRouterClient`, `OpenAIClient`,
from `packages/cli/src/services/ai-self-hosted.service.ts`) and the
provider-selection service (`AiService`, from
`packages/cli/src/services/ai.service.ts`).

JavaScript runtime values that flow through the code (request payload
objects, JSON schemas, parsed response bodies) are modelled by a small
`Json` inductive; the platform builtin `JSON.stringify` is modelled by
`Json.stringify` (string serialization with quote/backslash escaping;
numeric values are modelled as integers since no numeric computation
occurs in this code). JavaScript truthiness, which the source relies on
(`a || b`, `if (payload.payload && ...)`, empty strings being falsy), is
modelled by `jsTruthy` / `jsTruthyStr` / `jsOrElse` / `jsOrDefault`.

HTTP is modelled environment-style: each client method that performs a
`fetch` is embedded as a `Run` function that returns the list of HTTP
requests it issues together with its result (`Except` for methods that
can throw), taking the upstream `HttpResponse` as an explicit input.
-/

/-- A JavaScript/JSON value, as handled by the clients. `num` carries an
integer since the embedded code performs no numeric computation. -/
inductive Json where
  | null : Json
  | bool : Bool → Json
  | num : Int → Json
  | str : String → Json
  | arr : List Json → Json
  | obj : List (String × Json) → Json
deriving Repr

/-- String escaping used by the model of `JSON.stringify`: backslash and
double quote are escaped (control-character escapes are omitted; none of
the embedded code depends on them). -/
def jsEscape (s : String) : String :=
  (s.replace "\\" "\\\\").replace "\"" "\\\""

/-- Model of the platform builtin `JSON.stringify` on the `Json` model:
deterministic serialization, object keys in insertion order. -/
def Json.stringify : Json → String
  | Json.null => "null"
  | Json.bool b => if b then "true" else "false"
  | Json.num n => toString n
  | Json.str s => "\"" ++ jsEscape s ++ "\""
  | Json.arr xs =>
      "[" ++ String.intercalate "," (xs.attach.map (fun x => Json.stringify x.1)) ++ "]"
  | Json.obj kvs =>
      "\x7b" ++
        String.intercalate ","
          (kvs.attach.map (fun kv => "\"" ++ jsEscape kv.1.1 ++ "\":" ++ Json.stringify kv.1.2)) ++
        "\x7d"
decreasing_by
  · have h := List.sizeOf_lt_of_mem x.2
    simp at h ⊢
    omega
  · have h := List.sizeOf_lt_of_mem kv.2
    rcases kv with ⟨⟨k, v⟩, hmem⟩
    simp at h ⊢
    omega

/-- JavaScript truthiness of a defined value: `null`, `false`, `0` and the
empty string are falsy; arrays and objects are always truthy. -/
def jsTruthy : Json → Bool
  | Json.null => false
  | Json.bool b => b
  | Json.num n => !(n == 0)
  | Json.str s => !(s == "")
  | Json.arr _ => true
  | Json.obj _ => true

/-- JavaScript truthiness of a string: truthy iff non-empty. -/
def jsTruthyStr (s : String) : Bool := !(s == "")

/-- JavaScript `typeof v === 'object'`: true for `null`, arrays and objects. -/
def jsIsObjectType : Json → Bool
  | Json.null => true
  | Json.arr _ => true
  | Json.obj _ => true
  | _ => false

/-- JavaScript `a || b` where `a` is a possibly-undefined value (`none` =
`undefined`): yields `a` when defined and truthy, else `b`. -/
def jsOrElse (a : Option Json) (b : Json) : Json :=
  match a with
  | some v => if jsTruthy v then v else b
  | none => b

/-- JavaScript `a || b` for a possibly-undefined string `a` and string
default `b`: the empty string is falsy, so it also falls through to `b`. -/
def jsOrDefault (a : Option String) (b : String) : String :=
  match a with
  | some v => if v == "" then b else v
  | none => b

/-- JavaScript property access `v.k` (undefined on non-objects). -/
def Json.getField : Json → String → Option Json
  | Json.obj kvs, k => (kvs.find? (fun kv => kv.1 == k)).map (fun kv => kv.2)
  | _, _ => none

/-- `AiChatRequestDto`: the chat request payload; only its `payload`
property (an arbitrary object, possibly absent) is read by the clients. -/
structure AiChatRequestDto where
  payload : Option Json
deriving Repr

/-- `AiApplySuggestionRequestDto`. -/
structure AiApplySuggestionRequestDto where
  sessionId : String
  suggestionId : String
deriving Repr, DecidableEq

/-- An entry of `payload.context.schema` / `payload.context.inputSchema`
in `AiAskRequestDto`: a node name with its JSON schema. -/
structure SchemaEntry where
  nodeName : String
  schema : Json
deriving Repr

/-- The optional `context` property of `AiAskRequestDto`. -/
structure AskContext where
  schema : Option (List SchemaEntry)
  inputSchema : Option SchemaEntry
deriving Repr

/-- `AiAskRequestDto`: question, optional context, and target node. -/
structure AiAskRequestDto where
  question : String
  context : Option AskContext
  forNode : String
deriving Repr

/-- The `{ id: user.id }` object the service passes to client methods. -/
structure UserId where
  id : String
deriving Repr, DecidableEq

/-- `IUser`: the platform user. Only `id` is read by this code; a second
field keeps the model of the full user distinct from `UserId`. -/
structure IUser where
  id : String
  email : String
deriving Repr, DecidableEq

/-- One chat-completion message as built by the clients; `content` is a
JSON value because the extracted user message need not be a string. -/
structure ChatMessage where
  role : String
  content : Json
deriving Repr

/-- Serialization of a message into the request body object. -/
def ChatMessage.toJson (m : ChatMessage) : Json :=
  Json.obj [("role", Json.str m.role), ("content", m.content)]

/-- An outgoing HTTP request as assembled for `fetch`: URL, method,
header list (in insertion order) and the JSON body object (the source
serializes it with `JSON.stringify`; `Json.stringify` of `body` is the
byte-level body). -/
structure HttpRequest where
  url : String
  method : String
  headers : List (String × String)
  body : Json
deriving Repr

/-- The `choices[i].message` object of a parsed chat-completion response;
`content` is absent (`none`) when the field is missing, and the empty
string models present-but-empty content. -/
structure ChoiceMsg where
  content : Option String
deriving Repr, DecidableEq

/-- One element of `choices` in a parsed chat-completion response. -/
structure Choice where
  message : Option ChoiceMsg
deriving Repr, DecidableEq

/-- An upstream HTTP response: status line, the (opaque) body stream
handle returned for streaming calls, and the parsed JSON `choices` array
read by `askAi`. -/
structure HttpResponse where
  status : Nat
  statusText : String
  stream : Option Nat
  choices : List Choice
deriving Repr, DecidableEq

/-- The fetch `Response.ok` flag: status in the 2xx range. -/
def HttpResponse.ok (r : HttpResponse) : Bool :=
  decide (200 ≤ r.status ∧ r.status < 300)

/-- The expression `data.choices[0]?.message?.content` used by both
`askAi` implementations. -/
def askAiContent (r : HttpResponse) : Option String :=
  (r.choices.head?.bind Choice.message).bind ChoiceMsg.content

/-- `AiSelfHostedResponse`: the value returned by `chat` — the upstream
response body stream, passed through. -/
structure AiSelfHostedResponse where
  body : Option Nat
deriving Repr, DecidableEq

/-- `AiSelfHostedApplySuggestionResponse` (with the extra `applied` field
both implementations add). -/
structure AiSelfHostedApplySuggestionResponse where
  sessionId : String
  suggestionId : String
  applied : Bool
deriving Repr, DecidableEq

/-- `AiSelfHostedAskAiResponse`. -/
structure AiSelfHostedAskAiResponse where
  answer : String
deriving Repr, DecidableEq

/-- `AiSelfHostedCredentials`. -/
structure AiSelfHostedCredentials where
  apiKey : String
  url : String
deriving Repr, DecidableEq

/-- The system-message content string repeated literally in all four
request-building sites of the source. -/
def assistantSystemContent : String :=
  "You are an AI assistant for n8n, a workflow automation platform. Help users with their workflow automation questions and provide accurate, helpful responses."

/-- The closing line of the ask-AI prompt, shared by both clients. -/
def askAiPromptClosing : String :=
  "Please provide a helpful answer for this n8n workflow automation question."

/-- `OpenRouterClient`: its two private readonly fields set by the
constructor. -/
structure OpenRouterClient where
  apiKey : String
  model : String
deriving Repr, DecidableEq

/-- The readonly `baseUrl` of `OpenRouterClient`. -/
def OpenRouterClient.baseUrl : String := "https://openrouter.ai/api/v1"

/-- The constructor default for the `model` parameter of
`OpenRouterClient`. -/
def openRouterDefaultModel : String := "meta-llama/llama-3.1-8b-instruct:free"

/-- `OpenRouterClient.convertPayloadToMessages`: a system message, then a
user message extracted from `payload.payload` when that is a truthy
object — `payload.payload.message || payload.payload.question ||
JSON.stringify(payload.payload)`. -/
def OpenRouterClient.convertPayloadToMessages (payload : AiChatRequestDto) : List ChatMessage :=
  let sys : ChatMessage := ⟨"system", Json.str assistantSystemContent⟩
  match payload.payload with
  | some p =>
      if jsTruthy p && jsIsObjectType p then
        let userMessage :=
          jsOrElse (Json.getField p "message")
            (jsOrElse (Json.getField p "question") (Json.str (Json.stringify p)))
        [sys, ⟨"user", userMessage⟩]
      else [sys]
  | none => [sys]

/-- The single `fetch` request assembled by `OpenRouterClient.chat`. -/
def OpenRouterClient.chatRequest (c : OpenRouterClient) (payload : AiChatRequestDto) : HttpRequest :=
  ⟨OpenRouterClient.baseUrl ++ "/chat/completions", "POST",
   [("Content-Type", "application/json"),
    ("Authorization", "Bearer " ++ c.apiKey),
    ("HTTP-Referer", "https://n8n.io"),
    ("X-Title", "n8n AI Assistant")],
   Json.obj
     [("model", Json.str c.model),
      ("messages", Json.arr ((OpenRouterClient.convertPayloadToMessages payload).map ChatMessage.toJson)),
      ("stream", Json.bool true)]⟩

/-- `OpenRouterClient.chat`: issues the one request; throws on non-ok
responses, else passes the response body stream through. The first
component lists the HTTP requests the call performs. -/
def OpenRouterClient.chatRun (c : OpenRouterClient) (payload : AiChatRequestDto)
    (user : UserId) (resp : HttpResponse) :
    List HttpRequest × Except String AiSelfHostedResponse :=
  (⟨[c.chatRequest payload],
    if !resp.ok then
      Except.error ("OpenRouter API error: " ++ toString resp.status ++ " " ++ resp.statusText)
    else
      Except.ok ⟨resp.stream⟩⟩ : List HttpRequest × Except String AiSelfHostedResponse)

/-- `OpenRouterClient.applySuggestion`: no HTTP request; echoes the ids
with `applied: true`. -/
def OpenRouterClient.applySuggestionRun (c : OpenRouterClient)
    (payload : AiApplySuggestionRequestDto) (user : UserId) :
    List HttpRequest × AiSelfHostedApplySuggestionResponse :=
  ([], ⟨payload.sessionId, payload.suggestionId, true⟩)

/-- `OpenRouterClient.buildAskAiPrompt`: the prompt string assembled from
question, optional context (schemas serialized with `JSON.stringify`) and
target node. -/
def OpenRouterClient.buildAskAiPrompt (payload : AiAskRequestDto) : String :=
  let p0 := "Question: " ++ payload.question ++ "\n\n"
  let p1 :=
    match payload.context with
    | none => p0
    | some ctx =>
        let c0 := p0 ++ "Context:\n"
        let c1 :=
          match ctx.schema with
          | none => c0
          | some nodes =>
              c0 ++ "Available nodes and their schemas:\n" ++
                String.join (nodes.map (fun node =>
                  "- " ++ node.nodeName ++ ": " ++ Json.stringify node.schema ++ "\n"))
        match ctx.inputSchema with
        | none => c1
        | some isch =>
            c1 ++ "Input schema for " ++ isch.nodeName ++ ": " ++
              Json.stringify isch.schema ++ "\n"
  p1 ++ "\nFor node: " ++ payload.forNode ++ "\n\n" ++ askAiPromptClosing

/-- The single `fetch` request assembled by `OpenRouterClient.askAi`:
system message plus the built prompt as user message, `stream: false`. -/
def OpenRouterClient.askAiRequest (c : OpenRouterClient) (payload : AiAskRequestDto) : HttpRequest :=
  ⟨OpenRouterClient.baseUrl ++ "/chat/completions", "POST",
   [("Content-Type", "application/json"),
    ("Authorization", "Bearer " ++ c.apiKey),
    ("HTTP-Referer", "https://n8n.io"),
    ("X-Title", "n8n AI Assistant")],
   Json.obj
     [("model", Json.str c.model),
      ("messages", Json.arr
        [ChatMessage.toJson ⟨"system", Json.str assistantSystemContent⟩,
         ChatMessage.toJson ⟨"user", Json.str (OpenRouterClient.buildAskAiPrompt payload)⟩]),
      ("stream", Json.bool false)]⟩

/-- `OpenRouterClient.askAi`: issues the one request; throws on non-ok
responses, else answers with `data.choices[0]?.message?.content ||
'No response generated'`. -/
def OpenRouterClient.askAiRun (c : OpenRouterClient) (payload : AiAskRequestDto)
    (user : UserId) (resp : HttpResponse) :
    List HttpRequest × Except String AiSelfHostedAskAiResponse :=
  (⟨[c.askAiRequest payload],
    if !resp.ok then
      Except.error ("OpenRouter API error: " ++ toString resp.status ++ " " ++ resp.statusText)
    else
      Except.ok ⟨jsOrDefault (askAiContent resp) "No response generated"⟩⟩ :
    List HttpRequest × Except String AiSelfHostedAskAiResponse)

/-- `OpenRouterClient.generateAiCreditsCredentials`: no HTTP request;
returns the configured API key and the provider base URL. -/
def OpenRouterClient.generateAiCreditsCredentialsRun (c : OpenRouterClient) (user : IUser) :
    List HttpRequest × AiSelfHostedCredentials :=
  ([], ⟨c.apiKey, OpenRouterClient.baseUrl⟩)

/-- `OpenAIClient`: its two private readonly fields set by the
constructor. -/
structure OpenAIClient where
  apiKey : String
  model : String
deriving Repr, DecidableEq

/-- The readonly `baseUrl` of `OpenAIClient`. -/
def OpenAIClient.baseUrl : String := "https://api.openai.com/v1"

/-- The constructor default for the `model` parameter of `OpenAIClient`. -/
def openAiDefaultModel : String := "gpt-4o-mini"

/-- `OpenAIClient.convertPayloadToMessages`: identical logic to the
OpenRouter variant. -/
def OpenAIClient.convertPayloadToMessages (payload : AiChatRequestDto) : List ChatMessage :=
  let sys : ChatMessage := ⟨"system", Json.str assistantSystemContent⟩
  match payload.payload with
  | some p =>
      if jsTruthy p && jsIsObjectType p then
        let userMessage :=
          jsOrElse (Json.getField p "message")
            (jsOrElse (Json.getField p "question") (Json.str (Json.stringify p)))
        [sys, ⟨"user", userMessage⟩]
      else [sys]
  | none => [sys]

/-- The single `fetch` request assembled by `OpenAIClient.chat` (no
`HTTP-Referer` / `X-Title` headers here). -/
def OpenAIClient.chatRequest (c : OpenAIClient) (payload : AiChatRequestDto) : HttpRequest :=
  ⟨OpenAIClient.baseUrl ++ "/chat/completions", "POST",
   [("Content-Type", "application/json"),
    ("Authorization", "Bearer " ++ c.apiKey)],
   Json.obj
     [("model", Json.str c.model),
      ("messages", Json.arr ((OpenAIClient.convertPayloadToMessages payload).map ChatMessage.toJson)),
      ("stream", Json.bool true)]⟩

/-- `OpenAIClient.chat`: one request; throws on non-ok responses, else
passes the body stream through. -/
def OpenAIClient.chatRun (c : OpenAIClient) (payload : AiChatRequestDto)
    (user : UserId) (resp : HttpResponse) :
    List HttpRequest × Except String AiSelfHostedResponse :=
  (⟨[c.chatRequest payload],
    if !resp.ok then
      Except.error ("OpenAI API error: " ++ toString resp.status ++ " " ++ resp.statusText)
    else
      Except.ok ⟨resp.stream⟩⟩ : List HttpRequest × Except String AiSelfHostedResponse)

/-- `OpenAIClient.applySuggestion`: no HTTP request; echoes the ids with
`applied: true`. -/
def OpenAIClient.applySuggestionRun (c : OpenAIClient)
    (payload : AiApplySuggestionRequestDto) (user : UserId) :
    List HttpRequest × AiSelfHostedApplySuggestionResponse :=
  ([], ⟨payload.sessionId, payload.suggestionId, true⟩)

/-- `OpenAIClient.buildAskAiPrompt`: identical logic to the OpenRouter
variant. -/
def OpenAIClient.buildAskAiPrompt (payload : AiAskRequestDto) : String :=
  let p0 := "Question: " ++ payload.question ++ "\n\n"
  let p1 :=
    match payload.context with
    | none => p0
    | some ctx =>
        let c0 := p0 ++ "Context:\n"
        let c1 :=
          match ctx.schema with
          | none => c0
          | some nodes =>
              c0 ++ "Available nodes and their schemas:\n" ++
                String.join (nodes.map (fun node =>
                  "- " ++ node.nodeName ++ ": " ++ Json.stringify node.schema ++ "\n"))
        match ctx.inputSchema with
        | none => c1
        | some isch =>
            c1 ++ "Input schema for " ++ isch.nodeName ++ ": " ++
              Json.stringify isch.schema ++ "\n"
  p1 ++ "\nFor node: " ++ payload.forNode ++ "\n\n" ++ askAiPromptClosing

/-- The single `fetch` request assembled by `OpenAIClient.askAi`. -/
def OpenAIClient.askAiRequest (c : OpenAIClient) (payload : AiAskRequestDto) : HttpRequest :=
  ⟨OpenAIClient.baseUrl ++ "/chat/completions", "POST",
   [("Content-Type", "application/json"),
    ("Authorization", "Bearer " ++ c.apiKey)],
   Json.obj
     [("model", Json.str c.model),
      ("messages", Json.arr
        [ChatMessage.toJson ⟨"system", Json.str assistantSystemContent⟩,
         ChatMessage.toJson ⟨"user", Json.str (OpenAIClient.buildAskAiPrompt payload)⟩]),
      ("stream", Json.bool false)]⟩

/-- `OpenAIClient.askAi`: one request; throws on non-ok responses, else
answers with `data.choices[0]?.message?.content || 'No response
generated'`. -/
def OpenAIClient.askAiRun (c : OpenAIClient) (payload : AiAskRequestDto)
    (user : UserId) (resp : HttpResponse) :
    List HttpRequest × Except String AiSelfHostedAskAiResponse :=
  (⟨[c.askAiRequest payload],
    if !resp.ok then
      Except.error ("OpenAI API error: " ++ toString resp.status ++ " " ++ resp.statusText)
    else
      Except.ok ⟨jsOrDefault (askAiContent resp) "No response generated"⟩⟩ :
    List HttpRequest × Except String AiSelfHostedAskAiResponse)

/-- `OpenAIClient.generateAiCreditsCredentials`: no HTTP request; returns
the configured API key and the provider base URL. -/
def OpenAIClient.generateAiCreditsCredentialsRun (c : OpenAIClient) (user : IUser) :
    List HttpRequest × AiSelfHostedCredentials :=
  ([], ⟨c.apiKey, OpenAIClient.baseUrl⟩)

/-- `AiAssistantConfig` (from `@n8n/config`): the `aiAssistant` section of
the global configuration, with the defaults declared there. -/
structure AiAssistantConfig where
  baseUrl : String
  openRouterApiKey : String
  openAiApiKey : String
  openRouterModel : String
  openAiModel : String
  selfHostedEnabled : Bool
deriving Repr, DecidableEq

/-- The slice of `GlobalConfig` the service reads: the `aiAssistant`
section and `logging.level`. -/
structure GlobalConfig where
  aiAssistant : AiAssistantConfig
  loggingLevel : String
deriving Repr, DecidableEq

/-- The observable outputs of the `License` service (an external
collaborator): `isAiAssistantEnabled()`, `loadCertStr()`,
`getConsumerId()`. -/
structure LicenseEnv where
  aiAssistantEnabled : Bool
  licenseCert : String
  consumerId : String
deriving Repr, DecidableEq

/-- Modelled from the spec: the platform version constant `N8N_VERSION`,
imported by the service from `../constants` (not under src); an arbitrary
fixed version string, read but never inspected by this code. -/
def n8nVersionConst : String := "1.0.0"

/-- The licensed cloud client (`AiAssistantClient` from the external
`@n8n_io/ai-assistant-sdk`), modelled opaquely as the record of
constructor arguments the service passes to `new AiAssistantClient`. -/
structure AiAssistantClientCfg where
  licenseCert : String
  consumerId : String
  n8nVersion : String
  baseUrl : String
  logLevel : String
deriving Repr, DecidableEq

/-- The self-hosted client held by the service: one of the two adapters. -/
inductive SelfHostedClient where
  | openRouter : OpenRouterClient → SelfHostedClient
  | openAI : OpenAIClient → SelfHostedClient
deriving Repr, DecidableEq

/-- The mutable fields of `AiService`: `client`, `selfHostedClient`,
`isUsingLicensedClient`. -/
structure AiServiceState where
  client : Option AiAssistantClientCfg
  selfHostedClient : Option SelfHostedClient
  isUsingLicensedClient : Bool
deriving Repr, DecidableEq

/-- The field initializers of a fresh `AiService`: both clients unset,
`isUsingLicensedClient = false`. -/
def AiService.emptyState : AiServiceState := ⟨none, none, false⟩

/-- `AiService.init`: selects the licensed client when the license enables
the AI assistant; otherwise, when self-hosted mode is enabled and some key
is truthy (non-empty), selects the OpenRouter client when the OpenRouter
key is truthy, else the OpenAI client; otherwise leaves the state alone. -/
def AiService.init (s : AiServiceState) (cfg : GlobalConfig) (lic : LicenseEnv) : AiServiceState :=
  if lic.aiAssistantEnabled then
    ⟨some ⟨lic.licenseCert, lic.consumerId, n8nVersionConst, cfg.aiAssistant.baseUrl, cfg.loggingLevel⟩,
     s.selfHostedClient, true⟩
  else if cfg.aiAssistant.selfHostedEnabled &&
      (jsTruthyStr cfg.aiAssistant.openRouterApiKey || jsTruthyStr cfg.aiAssistant.openAiApiKey) then
    ⟨s.client,
     if jsTruthyStr cfg.aiAssistant.openRouterApiKey then
       some (SelfHostedClient.openRouter ⟨cfg.aiAssistant.openRouterApiKey, cfg.aiAssistant.openRouterModel⟩)
     else if jsTruthyStr cfg.aiAssistant.openAiApiKey then
       some (SelfHostedClient.openAI ⟨cfg.aiAssistant.openAiApiKey, cfg.aiAssistant.openAiModel⟩)
     else s.selfHostedClient,
     false⟩
  else s

/-- The lazy-initialization guard shared by all four service methods:
`if (!this.client && !this.selfHostedClient) await this.init()`. -/
def AiService.ensureInit (s : AiServiceState) (cfg : GlobalConfig) (lic : LicenseEnv) : AiServiceState :=
  if s.client.isNone && s.selfHostedClient.isNone then AiService.init s cfg lic else s

/-- Where a service method forwards its call: to the licensed client, to
the self-hosted client, or to neither because an `assert` failed; `α` is
the forwarded argument tuple, passed along unchanged. -/
inductive Dispatched (α : Type) where
  | licensed : AiAssistantClientCfg → α → Dispatched α
  | selfHosted : SelfHostedClient → α → Dispatched α
  | failed : String → Dispatched α
deriving Repr

/-- The dispatch body shared by all four service methods: forward to the
licensed client when `isUsingLicensedClient`, else to the self-hosted
client, asserting the respective client is set. -/
def AiService.dispatch {α : Type} (s : AiServiceState) (arg : α) : Dispatched α :=
  if s.isUsingLicensedClient then
    match s.client with
    | some c => Dispatched.licensed c arg
    | none => Dispatched.failed "Licensed assistant client not setup"
  else
    match s.selfHostedClient with
    | some c => Dispatched.selfHosted c arg
    | none => Dispatched.failed "Self-hosted assistant client not setup"

/-- `AiService.chat`: lazy init, then forward `(payload, { id: user.id })`. -/
def AiService.chat (s : AiServiceState) (cfg : GlobalConfig) (lic : LicenseEnv)
    (payload : AiChatRequestDto) (user : IUser) :
    AiServiceState × Dispatched (AiChatRequestDto × UserId) :=
  let s1 := AiService.ensureInit s cfg lic
  (s1, AiService.dispatch s1 (payload, ⟨user.id⟩))

/-- `AiService.applySuggestion`: lazy init, then forward
`(payload, { id: user.id })`. -/
def AiService.applySuggestion (s : AiServiceState) (cfg : GlobalConfig) (lic : LicenseEnv)
    (payload : AiApplySuggestionRequestDto) (user : IUser) :
    AiServiceState × Dispatched (AiApplySuggestionRequestDto × UserId) :=
  let s1 := AiService.ensureInit s cfg lic
  (s1, AiService.dispatch s1 (payload, ⟨user.id⟩))

/-- `AiService.askAi`: lazy init, then forward `(payload, { id: user.id })`. -/
def AiService.askAi (s : AiServiceState) (cfg : GlobalConfig) (lic : LicenseEnv)
    (payload : AiAskRequestDto) (user : IUser) :
    AiServiceState × Dispatched (AiAskRequestDto × UserId) :=
  let s1 := AiService.ensureInit s cfg lic
  (s1, AiService.dispatch s1 (payload, ⟨user.id⟩))

/-- `AiService.createFreeAiCredits`: lazy init, then forward the full user
to the selected client's `generateAiCreditsCredentials`. -/
def AiService.createFreeAiCredits (s : AiServiceState) (cfg : GlobalConfig) (lic : LicenseEnv)
    (user : IUser) : AiServiceState × Dispatched IUser :=
  let s1 := AiService.ensureInit s cfg lic
  (s1, AiService.dispatch s1 user)

/-- Helper: `OpenRouterClient.convertPayloadToMessages` always starts with
the system message, hence is never empty. -/
theorem openRouterMessagesNeNil (p : AiChatRequestDto) :
    OpenRouterClient.convertPayloadToMessages p ≠ [] := by
  unfold OpenRouterClient.convertPayloadToMessages
  rcases p with ⟨pp⟩
  rcases pp with _ | v
  · simp
  · dsimp only
    split <;> simp

/-- Helper: `OpenAIClient.convertPayloadToMessages` always starts with the
system message, hence is never empty. -/
theorem openAiMessagesNeNil (p : AiChatRequestDto) :
    OpenAIClient.convertPayloadToMessages p ≠ [] := by
  unfold OpenAIClient.convertPayloadToMessages
  rcases p with ⟨pp⟩
  rcases pp with _ | v
  · simp
  · dsimp only
    split <;> simp

/-- Claim C9: on either self-hosted client, `generateAiCreditsCredentials`
issues no upstream HTTP request and returns the configured API key
verbatim together with the fixed provider base URL. -/
theorem C9_credits_return_configured_key
    (c1 : OpenRouterClient) (c2 : OpenAIClient) (user1 user2 : IUser) :
    OpenRouterClient.generateAiCreditsCredentialsRun c1 user1 =
      ([], ⟨c1.apiKey, "https://openrouter.ai/api/v1"⟩)
    ∧ OpenAIClient.generateAiCreditsCredentialsRun c2 user2 =
      ([], ⟨c2.apiKey, "https://api.openai.com/v1"⟩) :=
  ⟨rfl, rfl⟩

/-- Claim C10: on either self-hosted client, `applySuggestion` issues no
upstream HTTP request and returns exactly the input session and
suggestion ids with `applied = true`. -/
theorem C10_applySuggestion_echoes_ids
    (c1 : OpenRouterClient) (c2 : OpenAIClient)
    (p1 p2 : AiApplySuggestionRequestDto) (u1 u2 : UserId) :
    OpenRouterClient.applySuggestionRun c1 p1 u1 =
      ([], ⟨p1.sessionId, p1.suggestionId, true⟩)
    ∧ OpenAIClient.applySuggestionRun c2 p2 u2 =
      ([], ⟨p2.sessionId, p2.suggestionId, true⟩) :=
  ⟨rfl, rfl⟩

/-- Claim C7: every `chat` and `askAi` call on either self-hosted client
issues exactly one upstream HTTP request, whatever the upstream response
is (success or failure). -/
theorem C7_exactly_one_request
    (c1 : OpenRouterClient) (c2 : OpenAIClient)
    (chatP : AiChatRequestDto) (askP : AiAskRequestDto) (u : UserId) (resp : HttpResponse) :
    (OpenRouterClient.chatRun c1 chatP u resp).1.length = 1
    ∧ (OpenRouterClient.askAiRun c1 askP u resp).1.length = 1
    ∧ (OpenAIClient.chatRun c2 chatP u resp).1.length = 1
    ∧ (OpenAIClient.askAiRun c2 askP u resp).1.length = 1 :=
  ⟨rfl, rfl, rfl, rfl⟩

/-- Claim C4: each `chat` / `askAi` request on either self-hosted client
carries an Authorization header equal to `Bearer ` plus the configured
API key, and a JSON body with the configured model under `model` and a
non-empty list under `messages`. -/
theorem C4_request_carries_auth_model_messages
    (c1 : OpenRouterClient) (c2 : OpenAIClient)
    (chatP : AiChatRequestDto) (askP : AiAskRequestDto) :
    (("Authorization", "Bearer " ++ c1.apiKey) ∈ (c1.chatRequest chatP).headers
      ∧ Json.getField (c1.chatRequest chatP).body "model" = some (Json.str c1.model)
      ∧ ∃ ms, Json.getField (c1.chatRequest chatP).body "messages" = some (Json.arr ms) ∧ ms ≠ [])
    ∧ (("Authorization", "Bearer " ++ c1.apiKey) ∈ (c1.askAiRequest askP).headers
      ∧ Json.getField (c1.askAiRequest askP).body "model" = some (Json.str c1.model)
      ∧ ∃ ms, Json.getField (c1.askAiRequest askP).body "messages" = some (Json.arr ms) ∧ ms ≠ [])
    ∧ (("Authorization", "Bearer " ++ c2.apiKey) ∈ (c2.chatRequest chatP).headers
      ∧ Json.getField (c2.chatRequest chatP).body "model" = some (Json.str c2.model)
      ∧ ∃ ms, Json.getField (c2.chatRequest chatP).body "messages" = some (Json.arr ms) ∧ ms ≠ [])
    ∧ (("Authorization", "Bearer " ++ c2.apiKey) ∈ (c2.askAiRequest askP).headers
      ∧ Json.getField (c2.askAiRequest askP).body "model" = some (Json.str c2.model)
      ∧ ∃ ms, Json.getField (c2.askAiRequest askP).body "messages" = some (Json.arr ms) ∧ ms ≠ []) := by
  refine ⟨⟨?_, rfl, ⟨_, rfl, ?_⟩⟩, ⟨?_, rfl, ⟨_, rfl, ?_⟩⟩, ⟨?_, rfl, ⟨_, rfl, ?_⟩⟩, ⟨?_, rfl, ⟨_, rfl, ?_⟩⟩⟩
  · simp [OpenRouterClient.chatRequest]
  · simp [openRouterMessagesNeNil chatP]
  · simp [OpenRouterClient.askAiRequest]
  · simp
  · simp [OpenAIClient.chatRequest]
  · simp [openAiMessagesNeNil chatP]
  · simp [OpenAIClient.askAiRequest]
  · simp

/-- Claim C5: with the API key and model fixed, equal input payloads give
byte-for-byte equal serialized request bodies and equal header lists, for
`chat` and `askAi` on both self-hosted clients. -/
theorem C5_request_deterministic
    (c1 : OpenRouterClient) (c2 : OpenAIClient)
    (p1 p2 : AiChatRequestDto) (q1 q2 : AiAskRequestDto)
    (hp : p1 = p2) (hq : q1 = q2) :
    (Json.stringify (c1.chatRequest p1).body = Json.stringify (c1.chatRequest p2).body
      ∧ (c1.chatRequest p1).headers = (c1.chatRequest p2).headers)
    ∧ (Json.stringify (c1.askAiRequest q1).body = Json.stringify (c1.askAiRequest q2).body
      ∧ (c1.askAiRequest q1).headers = (c1.askAiRequest q2).headers)
    ∧ (Json.stringify (c2.chatRequest p1).body = Json.stringify (c2.chatRequest p2).body
      ∧ (c2.chatRequest p1).headers = (c2.chatRequest p2).headers)
    ∧ (Json.stringify (c2.askAiRequest q1).body = Json.stringify (c2.askAiRequest q2).body
      ∧ (c2.askAiRequest q1).headers = (c2.askAiRequest q2).headers) := by
  subst hp
  subst hq
  exact ⟨⟨rfl, rfl⟩, ⟨rfl, rfl⟩, ⟨rfl, rfl⟩, ⟨rfl, rfl⟩⟩

/-- Witness for C5 at concrete clients, payloads and questions. -/
theorem C5_witness :
    (⟨some (Json.obj [("message", Json.str "hi")])⟩ : AiChatRequestDto) =
      ⟨some (Json.obj [("message", Json.str "hi")])⟩
    ∧ (Json.stringify ((⟨"rk", "rm"⟩ : OpenRouterClient).chatRequest
          ⟨some (Json.obj [("message", Json.str "hi")])⟩).body =
        Json.stringify ((⟨"rk", "rm"⟩ : OpenRouterClient).chatRequest
          ⟨some (Json.obj [("message", Json.str "hi")])⟩).body
      ∧ ((⟨"rk", "rm"⟩ : OpenRouterClient).chatRequest
          ⟨some (Json.obj [("message", Json.str "hi")])⟩).headers =
        ((⟨"rk", "rm"⟩ : OpenRouterClient).chatRequest
          ⟨some (Json.obj [("message", Json.str "hi")])⟩).headers) :=
  ⟨rfl,
   (C5_request_deterministic ⟨"rk", "rm"⟩ ⟨"ok", "om"⟩
      ⟨some (Json.obj [("message", Json.str "hi")])⟩
      ⟨some (Json.obj [("message", Json.str "hi")])⟩
      ⟨"how", none, "Node1"⟩ ⟨"how", none, "Node1"⟩ rfl rfl).1⟩

/-- Claim C2: on a non-2xx upstream response, every `chat` / `askAi` call
on either self-hosted client fails with an error message containing the
numeric status code and the reason phrase, and issues no second request. -/
theorem C2_non2xx_yields_error
    (c1 : OpenRouterClient) (c2 : OpenAIClient)
    (chatP : AiChatRequestDto) (askP : AiAskRequestDto) (u : UserId) (resp : HttpResponse)
    (hbad : ¬ (200 ≤ resp.status ∧ resp.status < 300)) :
    (∃ m, (OpenRouterClient.chatRun c1 chatP u resp).2 = Except.error m
      ∧ (∃ a b, m = a ++ toString resp.status ++ b)
      ∧ (∃ a b, m = a ++ resp.statusText ++ b)
      ∧ (OpenRouterClient.chatRun c1 chatP u resp).1.length = 1)
    ∧ (∃ m, (OpenRouterClient.askAiRun c1 askP u resp).2 = Except.error m
      ∧ (∃ a b, m = a ++ toString resp.status ++ b)
      ∧ (∃ a b, m = a ++ resp.statusText ++ b)
      ∧ (OpenRouterClient.askAiRun c1 askP u resp).1.length = 1)
    ∧ (∃ m, (OpenAIClient.chatRun c2 chatP u resp).2 = Except.error m
      ∧ (∃ a b, m = a ++ toString resp.status ++ b)
      ∧ (∃ a b, m = a ++ resp.statusText ++ b)
      ∧ (OpenAIClient.chatRun c2 chatP u resp).1.length = 1)
    ∧ (∃ m, (OpenAIClient.askAiRun c2 askP u resp).2 = Except.error m
      ∧ (∃ a b, m = a ++ toString resp.status ++ b)
      ∧ (∃ a b, m = a ++ resp.statusText ++ b)
      ∧ (OpenAIClient.askAiRun c2 askP u resp).1.length = 1) := by
  have hok : resp.ok = false := by
    simp only [HttpResponse.ok, decide_eq_false_iff_not]
    exact hbad
  refine
    ⟨⟨"OpenRouter API error: " ++ toString resp.status ++ " " ++ resp.statusText, ?_,
      ⟨"OpenRouter API error: ", " " ++ resp.statusText, by simp [String.append_assoc]⟩,
      ⟨"OpenRouter API error: " ++ toString resp.status ++ " ", "", by simp⟩, rfl⟩,
     ⟨"OpenRouter API error: " ++ toString resp.status ++ " " ++ resp.statusText, ?_,
      ⟨"OpenRouter API error: ", " " ++ resp.statusText, by simp [String.append_assoc]⟩,
      ⟨"OpenRouter API error: " ++ toString resp.status ++ " ", "", by simp⟩, rfl⟩,
     ⟨"OpenAI API error: " ++ toString resp.status ++ " " ++ resp.statusText, ?_,
      ⟨"OpenAI API error: ", " " ++ resp.statusText, by simp [String.append_assoc]⟩,
      ⟨"OpenAI API error: " ++ toString resp.status ++ " ", "", by simp⟩, rfl⟩,
     ⟨"OpenAI API error: " ++ toString resp.status ++ " " ++ resp.statusText, ?_,
      ⟨"OpenAI API error: ", " " ++ resp.statusText, by simp [String.append_assoc]⟩,
      ⟨"OpenAI API error: " ++ toString resp.status ++ " ", "", by simp⟩, rfl⟩⟩
  · simp [OpenRouterClient.chatRun, hok]
  · simp [OpenRouterClient.askAiRun, hok]
  · simp [OpenAIClient.chatRun, hok]
  · simp [OpenAIClient.askAiRun, hok]

/-- Witness for C2 at a concrete 404 response. -/
theorem C2_witness :
    ¬ ((200 : Nat) ≤ 404 ∧ (404 : Nat) < 300)
    ∧ (∃ m, (OpenRouterClient.chatRun ⟨"rk", "rm"⟩ ⟨none⟩ ⟨"u1"⟩
          ⟨404, "Not Found", none, []⟩).2 = Except.error m
        ∧ (∃ a b, m = a ++ toString (404 : Nat) ++ b)
        ∧ (∃ a b, m = a ++ "Not Found" ++ b)
        ∧ (OpenRouterClient.chatRun ⟨"rk", "rm"⟩ ⟨none⟩ ⟨"u1"⟩
            ⟨404, "Not Found", none, []⟩).1.length = 1) :=
  ⟨by decide,
   (C2_non2xx_yields_error ⟨"rk", "rm"⟩ ⟨"ok", "om"⟩ ⟨none⟩ ⟨"how", none, "Node1"⟩ ⟨"u1"⟩
      ⟨404, "Not Found", none, []⟩ (by decide)).1⟩

/-- Claim C3 as amended: on a 2xx response, when
`choices[0]?.message?.content` is missing or is the empty string (both
falsy in JavaScript), `askAi` answers with the placeholder; when the
content is a non-empty string, the answer equals it — on both
self-hosted clients. -/
theorem C3_askAi_answer_amended
    (c1 : OpenRouterClient) (c2 : OpenAIClient)
    (q1 q2 : AiAskRequestDto) (u1 u2 : UserId) (resp : HttpResponse)
    (hok : 200 ≤ resp.status ∧ resp.status < 300) :
    ((askAiContent resp = none ∨ askAiContent resp = some "") →
      (OpenRouterClient.askAiRun c1 q1 u1 resp).2 = Except.ok ⟨"No response generated"⟩
      ∧ (OpenAIClient.askAiRun c2 q2 u2 resp).2 = Except.ok ⟨"No response generated"⟩)
    ∧ (∀ a, askAiContent resp = some a → a ≠ "" →
      (OpenRouterClient.askAiRun c1 q1 u1 resp).2 = Except.ok ⟨a⟩
      ∧ (OpenAIClient.askAiRun c2 q2 u2 resp).2 = Except.ok ⟨a⟩) := by
  have hok2 : resp.ok = true := by
    simp only [HttpResponse.ok, decide_eq_true_eq]
    exact hok
  constructor
  · rintro (h | h) <;>
      simp [OpenRouterClient.askAiRun, OpenAIClient.askAiRun, hok2, jsOrDefault, h]
  · intro a ha hne
    simp [OpenRouterClient.askAiRun, OpenAIClient.askAiRun, hok2, jsOrDefault, ha, hne]

/-- Counterexample to C3 as stated: content is present but equal to the
empty string; the code answers the placeholder, not the content, because
the JavaScript `||` treats the empty string as falsy. -/
theorem C3_counterexample :
    askAiContent ⟨200, "OK", none, [⟨some ⟨some ""⟩⟩]⟩ = some ""
    ∧ (OpenRouterClient.askAiRun ⟨"rk", "rm"⟩ ⟨"how", none, "Node1"⟩ ⟨"u1"⟩
        ⟨200, "OK", none, [⟨some ⟨some ""⟩⟩]⟩).2 = Except.ok ⟨"No response generated"⟩
    ∧ (OpenRouterClient.askAiRun ⟨"rk", "rm"⟩ ⟨"how", none, "Node1"⟩ ⟨"u1"⟩
        ⟨200, "OK", none, [⟨some ⟨some ""⟩⟩]⟩).2 ≠ Except.ok ⟨""⟩ := by
  refine ⟨rfl, rfl, ?_⟩
  intro h
  have hval : (OpenRouterClient.askAiRun ⟨"rk", "rm"⟩ ⟨"how", none, "Node1"⟩ ⟨"u1"⟩
      ⟨200, "OK", none, [⟨some ⟨some ""⟩⟩]⟩).2 =
      Except.ok (⟨"No response generated"⟩ : AiSelfHostedAskAiResponse) := rfl
  have h2 := hval.symm.trans h
  simp at h2

/-- Witness for the amended C3 at a concrete 200 response carrying a
non-empty content string. -/
theorem C3_witness :
    ((200 : Nat) ≤ 200 ∧ (200 : Nat) < 300)
    ∧ ((OpenRouterClient.askAiRun ⟨"rk", "rm"⟩ ⟨"how", none, "Node1"⟩ ⟨"u1"⟩
          ⟨200, "OK", none, [⟨some ⟨some "hello"⟩⟩]⟩).2 = Except.ok ⟨"hello"⟩
      ∧ (OpenAIClient.askAiRun ⟨"ok", "om"⟩ ⟨"how", none, "Node1"⟩ ⟨"u2"⟩
          ⟨200, "OK", none, [⟨some ⟨some "hello"⟩⟩]⟩).2 = Except.ok ⟨"hello"⟩) :=
  ⟨by decide,
   (C3_askAi_answer_amended ⟨"rk", "rm"⟩ ⟨"ok", "om"⟩ ⟨"how", none, "Node1"⟩
      ⟨"how", none, "Node1"⟩ ⟨"u1"⟩ ⟨"u2"⟩ ⟨200, "OK", none, [⟨some ⟨some "hello"⟩⟩]⟩
      (by decide)).2 "hello" rfl (by decide)⟩

/-- Counterexample to C1 as stated: with the license reporting the
assistant disabled and self-hosted mode off (the configuration defaults),
initialization selects no client at all, so it does not select exactly
one client. -/
theorem C1_counterexample :
    ¬ ((AiService.init AiService.emptyState
          ⟨⟨"", "", "", "meta-llama/llama-3.1-8b-instruct:free", "gpt-4o-mini", false⟩, "info"⟩
          ⟨false, "", ""⟩).client.isSome = true
      ∨ (AiService.init AiService.emptyState
          ⟨⟨"", "", "", "meta-llama/llama-3.1-8b-instruct:free", "gpt-4o-mini", false⟩, "info"⟩
          ⟨false, "", ""⟩).selfHostedClient.isSome = true) := by
  decide

/-- Claim C1 as amended: initialization selects at most one client — the
licensed client exactly when the license reports the assistant enabled;
otherwise, when self-hosted mode is enabled and a key is configured, the
OpenRouter client exactly when the OpenRouter key is non-empty and the
OpenAI client exactly when the OpenRouter key is empty and the OpenAI key
is non-empty; and no client at all in the remaining configurations. -/
theorem C1_init_selection_amended
    (cfg : GlobalConfig) (lic : LicenseEnv) (st : AiServiceState)
    (hst : st = AiService.init AiService.emptyState cfg lic) :
    (st.client.isSome = lic.aiAssistantEnabled)
    ∧ (st.isUsingLicensedClient = lic.aiAssistantEnabled)
    ∧ (lic.aiAssistantEnabled = true → st.selfHostedClient = none)
    ∧ (lic.aiAssistantEnabled = false →
        st.client = none
        ∧ st.selfHostedClient =
          (if cfg.aiAssistant.selfHostedEnabled && jsTruthyStr cfg.aiAssistant.openRouterApiKey then
            some (SelfHostedClient.openRouter
              ⟨cfg.aiAssistant.openRouterApiKey, cfg.aiAssistant.openRouterModel⟩)
          else if cfg.aiAssistant.selfHostedEnabled && jsTruthyStr cfg.aiAssistant.openAiApiKey then
            some (SelfHostedClient.openAI
              ⟨cfg.aiAssistant.openAiApiKey, cfg.aiAssistant.openAiModel⟩)
          else none)) := by
  subst hst
  rcases cfg with ⟨⟨bu, ork, oak, orm, oam, se⟩, ll⟩
  rcases lic with ⟨en, cert, cid⟩
  cases en <;>
    cases se <;>
    cases hor : jsTruthyStr ork <;>
    cases hoa : jsTruthyStr oak <;>
    simp_all [AiService.init, AiService.emptyState]

/-- Witness for the amended C1: license disabled, self-hosted enabled,
OpenRouter key set — the OpenRouter client is selected. -/
theorem C1_witness :
    (AiService.init AiService.emptyState
        ⟨⟨"", "rk", "", "rm", "om", true⟩, "info"⟩ ⟨false, "cert", "cid"⟩).selfHostedClient =
      some (SelfHostedClient.openRouter ⟨"rk", "rm"⟩) :=
  ((C1_init_selection_amended ⟨⟨"", "rk", "", "rm", "om", true⟩, "info"⟩ ⟨false, "cert", "cid"⟩
      (AiService.init AiService.emptyState ⟨⟨"", "rk", "", "rm", "om", true⟩, "info"⟩
        ⟨false, "cert", "cid"⟩) rfl).2.2.2 rfl).2

/-- Claim C6: whichever client initialization selected, every service
operation forwards its call to that client with the payload and the user
id unchanged, leaving the service state as it was. -/
theorem C6_forwarding
    (s : AiServiceState) (cfg : GlobalConfig) (lic : LicenseEnv)
    (chatP : AiChatRequestDto) (applyP : AiApplySuggestionRequestDto)
    (askP : AiAskRequestDto) (user : IUser) :
    (∀ c, s.isUsingLicensedClient = true → s.client = some c →
      AiService.chat s cfg lic chatP user = (s, Dispatched.licensed c (chatP, ⟨user.id⟩))
      ∧ AiService.askAi s cfg lic askP user = (s, Dispatched.licensed c (askP, ⟨user.id⟩))
      ∧ AiService.applySuggestion s cfg lic applyP user =
          (s, Dispatched.licensed c (applyP, ⟨user.id⟩))
      ∧ AiService.createFreeAiCredits s cfg lic user = (s, Dispatched.licensed c user))
    ∧ (∀ h, s.isUsingLicensedClient = false → s.selfHostedClient = some h →
      AiService.chat s cfg lic chatP user = (s, Dispatched.selfHosted h (chatP, ⟨user.id⟩))
      ∧ AiService.askAi s cfg lic askP user = (s, Dispatched.selfHosted h (askP, ⟨user.id⟩))
      ∧ AiService.applySuggestion s cfg lic applyP user =
          (s, Dispatched.selfHosted h (applyP, ⟨user.id⟩))
      ∧ AiService.createFreeAiCredits s cfg lic user = (s, Dispatched.selfHosted h user)) := by
  constructor
  · intro c hflag hc
    simp [AiService.chat, AiService.askAi, AiService.applySuggestion,
      AiService.createFreeAiCredits, AiService.ensureInit, AiService.dispatch, hflag, hc]
  · intro h hflag hc
    simp [AiService.chat, AiService.askAi, AiService.applySuggestion,
      AiService.createFreeAiCredits, AiService.ensureInit, AiService.dispatch, hflag, hc]

/-- Witness for C6: a state holding the OpenRouter self-hosted client
forwards a chat call to it with payload and user id intact. -/
theorem C6_witness :
    AiService.chat ⟨none, some (SelfHostedClient.openRouter ⟨"rk", "rm"⟩), false⟩
        ⟨⟨"", "", "", "rm", "om", false⟩, "info"⟩ ⟨false, "cert", "cid"⟩ ⟨none⟩ ⟨"u1", "a@b"⟩ =
      (⟨none, some (SelfHostedClient.openRouter ⟨"rk", "rm"⟩), false⟩,
       Dispatched.selfHosted (SelfHostedClient.openRouter ⟨"rk", "rm"⟩) (⟨none⟩, ⟨"u1"⟩)) :=
  ((C6_forwarding ⟨none, some (SelfHostedClient.openRouter ⟨"rk", "rm"⟩), false⟩
      ⟨⟨"", "", "", "rm", "om", false⟩, "info"⟩ ⟨false, "cert", "cid"⟩ ⟨none⟩
      ⟨"s1", "g1"⟩ ⟨"how", none, "Node1"⟩ ⟨"u1", "a@b"⟩).2
    (SelfHostedClient.openRouter ⟨"rk", "rm"⟩) rfl rfl).1

/-- Claim C8: once some client is selected, every service operation
leaves the state unchanged, and its outcome does not depend on the
configuration or license environment (configuration is only read by
initialization). -/
theorem C8_state_unchanged
    (s : AiServiceState) (cfg cfg2 : GlobalConfig) (lic lic2 : LicenseEnv)
    (chatP : AiChatRequestDto) (applyP : AiApplySuggestionRequestDto)
    (askP : AiAskRequestDto) (user : IUser)
    (hsel : s.client.isSome = true ∨ s.selfHostedClient.isSome = true) :
    ((AiService.chat s cfg lic chatP user).1 = s
      ∧ AiService.chat s cfg lic chatP user = AiService.chat s cfg2 lic2 chatP user)
    ∧ ((AiService.askAi s cfg lic askP user).1 = s
      ∧ AiService.askAi s cfg lic askP user = AiService.askAi s cfg2 lic2 askP user)
    ∧ ((AiService.applySuggestion s cfg lic applyP user).1 = s
      ∧ AiService.applySuggestion s cfg lic applyP user =
          AiService.applySuggestion s cfg2 lic2 applyP user)
    ∧ ((AiService.createFreeAiCredits s cfg lic user).1 = s
      ∧ AiService.createFreeAiCredits s cfg lic user =
          AiService.createFreeAiCredits s cfg2 lic2 user) := by
  have hg : (s.client.isNone && s.selfHostedClient.isNone) = false := by
    rcases hsel with h | h <;> rcases s with ⟨cl, sh, fl⟩ <;>
      cases cl <;> cases sh <;> simp_all
  simp [AiService.chat, AiService.askAi, AiService.applySuggestion,
    AiService.createFreeAiCredits, AiService.ensureInit, hg]

/-- Witness for C8: with the OpenRouter client selected, a chat call at
two different configurations returns the same result and keeps the state. -/
theorem C8_witness :
    ((Option.isSome (none : Option AiAssistantClientCfg) = true
      ∨ Option.isSome (some (SelfHostedClient.openRouter ⟨"rk", "rm"⟩)) = true)
    ∧ ((AiService.chat ⟨none, some (SelfHostedClient.openRouter ⟨"rk", "rm"⟩), false⟩
          ⟨⟨"", "", "", "rm", "om", false⟩, "info"⟩ ⟨false, "cert", "cid"⟩ ⟨none⟩ ⟨"u1", "a@b"⟩).1 =
        ⟨none, some (SelfHostedClient.openRouter ⟨"rk", "rm"⟩), false⟩
      ∧ AiService.chat ⟨none, some (SelfHostedClient.openRouter ⟨"rk", "rm"⟩), false⟩
          ⟨⟨"", "", "", "rm", "om", false⟩, "info"⟩ ⟨false, "cert", "cid"⟩ ⟨none⟩ ⟨"u1", "a@b"⟩ =
        AiService.chat ⟨none, some (SelfHostedClient.openRouter ⟨"rk", "rm"⟩), false⟩
          ⟨⟨"base", "", "ok2", "rm2", "om2", true⟩, "debug"⟩ ⟨true, "c2", "i2"⟩ ⟨none⟩
          ⟨"u1", "a@b"⟩)) :=
  ⟨Or.inr rfl,
   (C8_state_unchanged ⟨none, some (SelfHostedClient.openRouter ⟨"rk", "rm"⟩), false⟩
      ⟨⟨"", "", "", "rm", "om", false⟩, "info"⟩ ⟨⟨"base", "", "ok2", "rm2", "om2", true⟩, "debug"⟩
      ⟨false, "cert", "cid"⟩ ⟨true, "c2", "i2"⟩ ⟨none⟩ ⟨"s1", "g1"⟩ ⟨"how", none, "Node1"⟩
      ⟨"u1", "a@b"⟩ (Or.inr rfl)).1⟩
